import Mathlib

/-!
Shallow embedding of the iSamples export client orchestration core
(`isamples_export_client/export_client.py`): the export-job status
enumeration, client construction, query building, the create call,
manifest persistence, STAC catalog link generation, and the retry loop
of `perform_full_download`.
-/

set_option autoImplicit false

namespace ExportClientModel

/-- Module-level constant `GEOPARQUET` from the source. -/
def GEOPARQUET : String := "geoparquet"

/-- Module-level constant `SOLR_INDEX_UPDATED_TIME` from the source. -/
def SOLR_INDEX_UPDATED_TIME : String := "indexUpdatedTime"

/-- The `ExportJobStatus` enumeration from the source. -/
inductive ExportJobStatus where
  | created
  | started
  | completed
  | error
deriving DecidableEq, Repr

/-- The string value attached to each `ExportJobStatus` member. -/
def ExportJobStatus.value : ExportJobStatus → String
  | .created => "created"
  | .started => "started"
  | .completed => "completed"
  | .error => "error"

/-- Iteration order of the members of `ExportJobStatus`, as Python
iterates the enum in `string_to_enum`. -/
def ExportJobStatus.members : List ExportJobStatus :=
  [.created, .started, .completed, .error]

/-- `ExportJobStatus.string_to_enum`: scans the members in order for one
whose value equals the raw string, raising `ValueError` otherwise. -/
def ExportJobStatus.string_to_enum (raw_string : String) : Except String ExportJobStatus :=
  match ExportJobStatus.members.find? (fun enum_value => enum_value.value == raw_string) with
  | some enum_value => Except.ok enum_value
  | none => Except.error ("No ExportJobStatus found for " ++ raw_string)

/-- The state captured by `ExportClient.__init__`; the requests session
and the sleep interval are omitted (pure transport parameters). -/
structure ExportClient where
  max_errors : Nat
  query : String
  destination_directory : String
  jwt : String
  export_server_url : String
  format : String
  is_geoparquet : Bool
  refresh_date : Option String
  collection_title : String
  collection_description : Option String
deriving DecidableEq, Repr

/-- Whether the string ends with the path separator, the
`endswith("/")` test of the source. -/
def ends_with_slash (s : String) : Bool :=
  s.data.getLastD ' ' == '/'

/-- `ExportClient.__init__`, with the parameters in their positional
order: normalizes the server URL to end in a slash, and maps the
`geoparquet` format to an intermediate `jsonl` format with the
`is_geoparquet` flag set. -/
def ExportClient.init (query destination_directory jwt export_server_url format collection_title : String)
    (collection_description : Option String) (refresh_date : Option String) : ExportClient :=
  let export_server_url :=
    if ends_with_slash export_server_url then export_server_url else export_server_url ++ "/"
  if format == "geoparquet" then
    { max_errors := 3, query, destination_directory, jwt, export_server_url,
      format := "jsonl", is_geoparquet := true, refresh_date, collection_title,
      collection_description }
  else
    { max_errors := 3, query, destination_directory, jwt, export_server_url,
      format := format, is_geoparquet := false, refresh_date, collection_title,
      collection_description }

/-- `os.path.join` for a relative second component, as used by the client. -/
def os_path_join (a b : String) : String :=
  if a == "" then b else if ends_with_slash a then a ++ b else a ++ "/" ++ b

/-- Split a character list at every occurrence of the separator; the
accumulator holds the current component reversed. -/
def splitSepAux (sep : Char) : List Char → List Char → List (List Char)
  | [], acc => [acc.reverse]
  | c :: cs, acc =>
      if c = sep then acc.reverse :: splitSepAux sep cs []
      else splitSepAux sep cs (c :: acc)

/-- The components of a path string, split at the `/` separator. -/
def path_components (s : String) : List String :=
  (splitSepAux '/' s.data []).map (fun cs => ⟨cs⟩)

/-- `os.path.dirname`: everything before the last path separator. -/
def os_path_dirname (s : String) : String :=
  String.intercalate "/" (path_components s).dropLast

/-- `os.path.basename`: the last path component. -/
def os_path_basename (s : String) : String :=
  (path_components s).getLastD ""

/-- `ExportClient._manifest_file_path`. -/
def ExportClient.manifest_file_path (dir_path : String) : String :=
  os_path_join dir_path "manifest.json"

/-- `ExportClient._stac_item_path`. -/
def ExportClient.stac_item_path (dir_path : String) : String :=
  os_path_join dir_path "stac.json"

/-- `ExportClient._stac_catalog_path`. -/
def ExportClient.stac_catalog_path (dir_path : String) : String :=
  os_path_join dir_path "stac.json"

/-- `ExportClient._query_with_timestamp`: appends the range filter on the
index-updated field when a refresh date is present. -/
def ExportClient.query_with_timestamp (c : ExportClient) : String :=
  match c.refresh_date with
  | some refresh_date =>
      c.query ++ " AND " ++ SOLR_INDEX_UPDATED_TIME ++ ":[" ++ refresh_date ++ " TO *]"
  | none => c.query

/-- An HTTP response as the client observes it: a status code and the
string-valued JSON fields of the body that the client reads. -/
structure Response where
  status_code : Nat
  body : List (String × String)
deriving DecidableEq, Repr

/-- `_is_expected_response_code`: true exactly for 2xx codes. -/
def is_expected_response_code (response : Response) : Bool :=
  200 ≤ response.status_code && response.status_code < 300

/-- Python `dict.get`: the value at the key, or `None` when absent. -/
def json_get (body : List (String × String)) (key : String) : Option String :=
  (body.find? (fun kv => kv.fst == key)).map (fun kv => kv.snd)

/-- The query string `create` submits: with a refresh date present it is
rebuilt by `_query_with_timestamp`, else it is the base query. -/
def ExportClient.create_query (c : ExportClient) : String :=
  if c.refresh_date.isSome then c.query_with_timestamp else c.query

/-- `ExportClient.create` applied to the response of the create endpoint:
on a 2xx response it returns `json.get("uuid")` (possibly absent), and
on any other status it raises `ValueError`. -/
def ExportClient.create (_c : ExportClient) (response : Response) : Except String (Option String) :=
  if is_expected_response_code response then
    Except.ok (json_get response.body "uuid")
  else
    Except.error "Invalid response to export creation"

/-- One entry of the manifest JSON array, the `new_manifest_dict` of
`write_manifest`. -/
structure ManifestEntry where
  query : String
  uuid : String
  format : String
  start_time : String
  num_results : Nat
  export_server_url : String
  is_geoparquet : Bool
  query_with_timestamp : Option String
deriving DecidableEq, Repr

/-- The `new_manifest_dict` built by `write_manifest` from the client
state and the run parameters; `start_time` is the solr-formatted start
timestamp. -/
def ExportClient.new_manifest_entry (c : ExportClient) (query uuid start_time : String)
    (num_results : Nat) : ManifestEntry :=
  { query, uuid, format := c.format, start_time, num_results,
    export_server_url := c.export_server_url, is_geoparquet := c.is_geoparquet,
    query_with_timestamp :=
      if c.refresh_date.isSome then some c.query_with_timestamp else none }

/-- The file-content effect of `write_manifest` at the manifest path:
load the existing JSON array when the file exists (else start from a
singleton) and rewrite it with the entry appended. -/
def write_manifest_update (existing : Option (List ManifestEntry)) (entry : ManifestEntry) :
    List ManifestEntry :=
  match existing with
  | some manifests => manifests ++ [entry]
  | none => [entry]

/-- Iterated `write_manifest` calls against the same manifest path,
starting from the given file content (`none` when no file exists). -/
def write_manifest_runs (entries : List ManifestEntry)
    (init : Option (List ManifestEntry)) : Option (List ManifestEntry) :=
  entries.foldl (fun st entry => some (write_manifest_update st entry)) init

/-- `ExportClient.from_existing_download`, reading the parsed manifest
array (or `none` when the manifest file does not exist). The source
builds the new client with the call
`ExportClient(query, refresh_dir, jwt, export_server_url, format, refresh_date)`,
whose sixth positional argument is the `collection_title` parameter of
`__init__`, so the manifest start time is bound to `collection_title`
and the `refresh_date` parameter keeps its default `None`. -/
def ExportClient.from_existing_download (manifest : Option (List ManifestEntry))
    (refresh_dir jwt : String) : Except String ExportClient :=
  match manifest with
  | none =>
      Except.error ("Refresh option was specified, but manifest file at " ++
        ExportClient.manifest_file_path refresh_dir ++ " does not exist")
  | some manifest_list =>
      match manifest_list.getLast? with
      | none => Except.error "list index out of range"
      | some last_manifest_dict =>
          let format :=
            if last_manifest_dict.is_geoparquet then GEOPARQUET else last_manifest_dict.format
          let refresh_date := last_manifest_dict.start_time
          Except.ok (ExportClient.init last_manifest_dict.query refresh_dir jwt
            last_manifest_dict.export_server_url format refresh_date none none)

/-- The local filename `download` writes to: a timestamped subdirectory
of the destination holding `isamples_export_<timestamp>.<format>`. -/
def ExportClient.download_local_filename (c : ExportClient) (date_string : String) : String :=
  os_path_join (os_path_join c.destination_directory date_string)
    ("isamples_export_" ++ date_string ++ "." ++ c.format)

/-- The manifest path `perform_full_download` writes to: it passes
`os.path.dirname(filename)` (the timestamped subdirectory) as the
directory argument of `write_manifest`. -/
def ExportClient.perform_manifest_path (c : ExportClient) (date_string : String) : String :=
  ExportClient.manifest_file_path (os_path_dirname (c.download_local_filename date_string))

/-- One link of the STAC catalog document; the self and root links carry
no title, child links do. -/
structure StacLink where
  rel : String
  type : String
  title : Option String
  href : String
deriving DecidableEq, Repr

/-- A file below the destination directory, as its list of path
components relative to that directory. -/
abbrev RelPath := List String

/-- `os.path.relpath(item, destination)` in the component model. -/
def joinPath (p : RelPath) : String := String.intercalate "/" p

/-- `ExportClient._gather_contained_stac_items`: `Path(dir).rglob("stac.json")`,
every file named `stac.json` at any depth below the destination. -/
def gather_contained_stac_items (files : List RelPath) : List RelPath :=
  files.filter (fun p => p.getLastD "" == "stac.json")

/-- `os.path.basename(os.path.dirname(item))` for an item at relative
path `p` below a destination whose own basename is
`destination_basename`. -/
def child_link_title (destination_basename : String) (p : RelPath) : String :=
  match p.dropLast.getLast? with
  | some d => d
  | none => destination_basename

/-- The child link `write_stac_catalog` builds for one discovered item. -/
def child_stac_link (destination_basename : String) (p : RelPath) : StacLink :=
  { rel := "child", type := "application/json",
    title := some (child_link_title destination_basename p), href := joinPath p }

/-- The links list assembled by `ExportClient.write_stac_catalog`: the
fixed self and root links, then one child link per discovered item
document whose relative path is not the catalog path `stac.json`
itself, in discovery order. -/
def write_stac_catalog_links (destination_basename : String) (files : List RelPath) :
    List StacLink :=
  let catalog_filename := "stac.json"
  [ { rel := "self", type := "application/json", title := none, href := catalog_filename },
    { rel := "root", type := "application/json", title := none, href := catalog_filename } ] ++
  ((gather_contained_stac_items files).filter (fun p => ¬ (joinPath p == "stac.json"))).map
    (child_stac_link destination_basename)

/-- The path `write_stac_catalog` writes the catalog document to,
unconditionally: `stac.json` directly under the destination
directory (the open-for-write truncates any existing file there). -/
def ExportClient.write_stac_catalog_path (c : ExportClient) : String :=
  ExportClient.stac_catalog_path c.destination_directory

/-- The observable outcome of one iteration of the retry loop of
`perform_full_download`. An exception anywhere in the try body is a
raise; the two raise constructors record whether the manifest entry had
already been written when the exception was thrown. -/
inductive IterOutcome where
  | raiseBeforeManifest
  | raiseAfterManifest
  | statusError
  | running
  | completed
deriving DecidableEq, Repr

/-- How the retry loop of `perform_full_download` ended. -/
inductive RunOutcome where
  | success
  | jobError
  | maxErrorsExceeded
deriving DecidableEq, Repr

/-- The mutable state threaded through the retry loop: the error counter
and the number of manifest entries, STAC item documents and STAC
catalog documents written so far in this run. -/
structure LoopState where
  error_count : Nat
  manifest_writes : Nat
  stac_item_writes : Nat
  stac_catalog_writes : Nat
deriving DecidableEq, Repr

/-- The loop state at the start of a run: `error_count = 0`, nothing
written yet. -/
def initLoopState : LoopState := ⟨0, 0, 0, 0⟩

/-- The result of a terminated retry loop: the final state, how it
ended, and the iteration outcomes that were never consumed (each
consumed outcome begins with a status poll). -/
structure RunResult where
  final : LoopState
  outcome : RunOutcome
  remaining : List IterOutcome
deriving DecidableEq, Repr

/-- The `while True` retry loop of `perform_full_download` (lines
429-469): a parsed error status breaks immediately; a non-completed
status sleeps and re-polls without touching the error counter; a
completed iteration writes the manifest entry, the STAC item and the
STAC catalog and breaks; an exception increments the error counter and
the loop breaks once the counter exceeds `max_errors`, else it retries.
`none` means the supplied outcome stream ended with the loop still
running. -/
def downloadLoop (max_errors : Nat) : List IterOutcome → LoopState → Option RunResult
  | [], _ => none
  | step :: rest, st =>
    match step with
    | .statusError => some ⟨st, .jobError, rest⟩
    | .running => downloadLoop max_errors rest st
    | .completed =>
        some ⟨{ st with manifest_writes := st.manifest_writes + 1,
                        stac_item_writes := st.stac_item_writes + 1,
                        stac_catalog_writes := st.stac_catalog_writes + 1 },
              .success, rest⟩
    | .raiseBeforeManifest =>
        let st := { st with error_count := st.error_count + 1 }
        if st.error_count > max_errors then some ⟨st, .maxErrorsExceeded, rest⟩
        else downloadLoop max_errors rest st
    | .raiseAfterManifest =>
        let st := { st with error_count := st.error_count + 1,
                            manifest_writes := st.manifest_writes + 1 }
        if st.error_count > max_errors then some ⟨st, .maxErrorsExceeded, rest⟩
        else downloadLoop max_errors rest st

/-- The opening of `perform_full_download`: the create call runs first
and the retry loop starts whatever job identifier it returned (even
`none`, when the 2xx create response had no uuid field). -/
def ExportClient.perform_start (c : ExportClient) (response : Response)
    (steps : List IterOutcome) : Except String (Option RunResult) :=
  (c.create response).map (fun _uuid => downloadLoop c.max_errors steps initLoopState)

/-- Iterated manifest writes starting from an existing array append in
order. -/
theorem write_manifest_runs_some (entries : List ManifestEntry) (acc : List ManifestEntry) :
    write_manifest_runs entries (some acc) = some (acc ++ entries) := by
  induction entries generalizing acc with
  | nil => simp [write_manifest_runs]
  | cons e es ih =>
      have h := ih (acc ++ [e])
      simp only [write_manifest_runs, List.foldl_cons, write_manifest_update] at h ⊢
      rw [h]
      simp

/-- C1, evaluated at the failing input: rebuilding a client from an
existing manifest passes the last entry start time as the sixth
positional argument of `__init__`, which is `collection_title`, so the
new client has no refresh date and its effective query carries no
timestamp filter; with no manifest present construction fails with the
configuration error. -/
theorem c1_from_existing_download_refresh_dropped :
    ∃ c0 : ExportClient,
      ExportClient.from_existing_download
          (some [{ query := "material:rock", uuid := "u-1", format := "jsonl",
                   start_time := "2023-01-01T00:00:00.000000Z", num_results := 10,
                   export_server_url := "https://server/", is_geoparquet := false,
                   query_with_timestamp := none }]) "dest" "tkn" = Except.ok c0
      ∧ c0.refresh_date = none
      ∧ c0.collection_title = "2023-01-01T00:00:00.000000Z"
      ∧ c0.create_query = "material:rock"
      ∧ ExportClient.from_existing_download none "dest" "tkn" =
          Except.error ("Refresh option was specified, but manifest file at " ++
            "dest/manifest.json" ++ " does not exist") :=
  ⟨_, rfl, rfl, rfl, rfl, rfl⟩

/-- C2, evaluated at a concrete run: `perform_full_download` hands the
timestamped download subdirectory to `write_manifest`, so the manifest
lands at `dest/<run-timestamp>/manifest.json`, which differs from the
destination-root path `dest/manifest.json` that `_manifest_file_path`
yields for the destination directory itself. -/
theorem c2_manifest_written_in_run_subdirectory :
    (ExportClient.init "material:rock" "dest" "tkn" "https://server/" "jsonl" "t" none
        none).perform_manifest_path "2024_01_01_00_00_00"
      = "dest/2024_01_01_00_00_00/manifest.json"
    ∧ ExportClient.manifest_file_path "dest" = "dest/manifest.json"
    ∧ ("dest/2024_01_01_00_00_00/manifest.json" : String) ≠ "dest/manifest.json" :=
  ⟨rfl, rfl, by decide⟩

/-- C3 counterexample: a run of four consecutive failing iterations in
which each exception is thrown after the manifest write terminates as a
reported failure, yet manifest entries were written, refuting the claim
that such a run writes no manifest entry. -/
theorem c3_counterexample_manifest_written :
    ∃ r : RunResult,
      downloadLoop 3 (List.replicate 4 IterOutcome.raiseAfterManifest) initLoopState
        = some r
      ∧ r.outcome = RunOutcome.maxErrorsExceeded
      ∧ r.final.manifest_writes ≠ 0 :=
  ⟨_, rfl, rfl, by decide⟩

/-- C3 as amended: with the default maximum of 3 errors, a run of four
consecutive iterations that each raise before the manifest write
terminates with the counter at 4, is reported as failed, and has
written no manifest entry, item document or catalog document. -/
theorem c3_max_errors_abandons_run (steps : List IterOutcome)
    (hall : ∀ s ∈ steps, s = IterOutcome.raiseBeforeManifest)
    (hlen : steps.length = 4) :
    downloadLoop 3 steps initLoopState =
      some ⟨⟨4, 0, 0, 0⟩, RunOutcome.maxErrorsExceeded, []⟩ := by
  have hsteps : steps = List.replicate 4 IterOutcome.raiseBeforeManifest :=
    List.eq_replicate_iff.mpr ⟨hlen, hall⟩
  rw [hsteps]
  rfl

/-- Witness for the amended C3 at the concrete four-iteration run. -/
theorem c3_max_errors_abandons_run_witness :
    downloadLoop 3 (List.replicate 4 IterOutcome.raiseBeforeManifest) initLoopState =
      some ⟨⟨4, 0, 0, 0⟩, RunOutcome.maxErrorsExceeded, []⟩ :=
  c3_max_errors_abandons_run _ (fun _ hs => List.eq_of_mem_replicate hs) rfl

/-- C9 counterexample: an iteration that raises after the manifest write
followed by a poll that parses to the error status ends the run as a
job failure with a manifest entry already written by that run, refuting
the claim that no manifest entry is written by a run in which a poll
parses to the error status. -/
theorem c9_counterexample_prior_manifest_write :
    ∃ r : RunResult,
      downloadLoop 3 [IterOutcome.raiseAfterManifest, IterOutcome.statusError]
        initLoopState = some r
      ∧ r.outcome = RunOutcome.jobError
      ∧ r.final.manifest_writes ≠ 0 :=
  ⟨_, rfl, rfl, by decide⟩

/-- C9 as amended: a poll that parses to the error status ends the run
at once as a job failure: the error counter is not incremented, no
later iteration (hence no further status poll) is consumed, and the
write counters are exactly as they were when the error status arrived —
in particular a run reaching the error status on its first poll writes
nothing. -/
theorem c9_status_error_is_terminal (max_errors : Nat) (rest : List IterOutcome)
    (st : LoopState) :
    downloadLoop max_errors (IterOutcome.statusError :: rest) st =
      some ⟨st, RunOutcome.jobError, rest⟩ :=
  rfl

/-- C6: writing N manifest entries against a directory with no manifest
file yields the array of exactly those N entries in insertion order,
and one further write appends, leaving the first N entries unchanged. -/
theorem c6_manifest_append_in_order (entries : List ManifestEntry) (entry : ManifestEntry)
    (hne : entries ≠ []) :
    write_manifest_runs entries none = some entries
    ∧ write_manifest_update (write_manifest_runs entries none) entry = entries ++ [entry]
    ∧ (entries ++ [entry]).length = entries.length + 1
    ∧ (entries ++ [entry]).take entries.length = entries := by
  obtain ⟨e, es, rfl⟩ : ∃ e es, entries = e :: es := by
    cases entries with
    | nil => exact absurd rfl hne
    | cons e es => exact ⟨e, es, rfl⟩
  have h1 : write_manifest_runs (e :: es) none = some (e :: es) := by
    have h := write_manifest_runs_some es [e]
    simp only [write_manifest_runs, List.foldl_cons, write_manifest_update] at h ⊢
    rw [h]
    simp
  refine ⟨h1, ?_, by simp, by simp⟩
  rw [h1]
  rfl

/-- Witness for C6 at two concrete entries plus a third. -/
theorem c6_manifest_append_in_order_witness :
    write_manifest_runs
        [⟨"q1", "u1", "jsonl", "t1", 1, "https://server/", false, none⟩,
         ⟨"q2", "u2", "jsonl", "t2", 2, "https://server/", false, none⟩] none =
      some [⟨"q1", "u1", "jsonl", "t1", 1, "https://server/", false, none⟩,
            ⟨"q2", "u2", "jsonl", "t2", 2, "https://server/", false, none⟩] :=
  (c6_manifest_append_in_order _
    ⟨"q3", "u3", "jsonl", "t3", 3, "https://server/", false, none⟩ (by decide)).1

/-- C7: the catalog links are the two fixed self and root links plus
exactly one child link per item document found below the root other
than the root catalog itself, each child titled by its containing
directory name and referencing the item by its relative path; the
catalog document path is always `stac.json` at the destination root. -/
theorem c7_catalog_links (destination_basename : String) (files : List RelPath) :
    (write_stac_catalog_links destination_basename files).length =
      ((gather_contained_stac_items files).filter
        (fun p => ¬ (joinPath p == "stac.json"))).length + 2
    ∧ ((write_stac_catalog_links destination_basename files).filter
        (fun l => l.rel == "child")).length =
      ((gather_contained_stac_items files).filter
        (fun p => ¬ (joinPath p == "stac.json"))).length
    ∧ ((write_stac_catalog_links destination_basename files).filter
        (fun l => l.rel == "self")).length = 1
    ∧ ((write_stac_catalog_links destination_basename files).filter
        (fun l => l.rel == "root")).length = 1
    ∧ (∀ l ∈ write_stac_catalog_links destination_basename files, l.rel = "child" →
        ∃ p ∈ (gather_contained_stac_items files).filter
          (fun p => ¬ (joinPath p == "stac.json")),
          l = child_stac_link destination_basename p)
    ∧ (∀ c : ExportClient, c.write_stac_catalog_path =
        os_path_join c.destination_directory "stac.json") := by
  have hmap_child : ∀ ps : List RelPath,
      List.filter (fun l => l.rel == "child")
        (ps.map (child_stac_link destination_basename)) =
        ps.map (child_stac_link destination_basename) := by
    intro ps
    refine List.filter_eq_self.mpr ?_
    intro l hl
    obtain ⟨p, _, rfl⟩ := List.mem_map.mp hl
    rfl
  have hmap_other : ∀ r : String, ("child" == r) = false → ∀ ps : List RelPath,
      List.filter (fun l => l.rel == r)
        (ps.map (child_stac_link destination_basename)) = [] := by
    intro r hr ps
    refine List.filter_eq_nil_iff.mpr ?_
    intro l hl
    obtain ⟨p, _, rfl⟩ := List.mem_map.mp hl
    simp only [child_stac_link, hr]
    exact Bool.false_ne_true
  refine ⟨?_, ?_, ?_, ?_, ?_, fun _ => rfl⟩
  · simp [write_stac_catalog_links]
  · simp only [write_stac_catalog_links, List.filter_append, hmap_child]
    rw [show List.filter (fun l : StacLink => l.rel == "child")
        [⟨"self", "application/json", none, "stac.json"⟩,
         ⟨"root", "application/json", none, "stac.json"⟩] = [] from rfl]
    simp
  · simp only [write_stac_catalog_links, List.filter_append,
      hmap_other "self" rfl]
    rfl
  · simp only [write_stac_catalog_links, List.filter_append,
      hmap_other "root" rfl]
    rfl
  · intro l hl hrel
    rcases List.mem_append.mp hl with hbase | hmap
    · simp only [List.mem_cons, List.not_mem_nil, or_false] at hbase
      rcases hbase with rfl | rfl
      · exact absurd hrel (by decide)
      · exact absurd hrel (by decide)
    · obtain ⟨p, hp, rfl⟩ := List.mem_map.mp hmap
      exact ⟨p, hp, rfl⟩

/-- Witness for C7 at a concrete destination tree with two item
documents below the root and one catalog at the root. -/
theorem c7_catalog_links_witness :
    (write_stac_catalog_links "dest"
        [["a", "stac.json"], ["stac.json"], ["b", "c", "stac.json"],
         ["a", "isamples_export_x.jsonl"]]).length = 2 + 2 :=
  (c7_catalog_links "dest"
      [["a", "stac.json"], ["stac.json"], ["b", "c", "stac.json"],
       ["a", "isamples_export_x.jsonl"]]).1.trans (by decide)

/-- C4: for every base query and refresh timestamp T set on the client,
the query submitted to the create endpoint equals the base query
followed by the literal filter suffix with T substituted, and with no
refresh timestamp set the submitted query is the base query unchanged. -/
theorem c4_create_effective_query (c : ExportClient) (T : String) :
    (c.refresh_date = some T →
      c.create_query = c.query ++ " AND indexUpdatedTime:[" ++ T ++ " TO *]")
    ∧ (c.refresh_date = none → c.create_query = c.query) := by
  refine ⟨fun h => ?_, fun h => ?_⟩
  · rw [show (" AND indexUpdatedTime:[" : String) =
        " AND " ++ SOLR_INDEX_UPDATED_TIME ++ ":[" from rfl]
    simp [ExportClient.create_query, ExportClient.query_with_timestamp, h,
      String.append_assoc]
  · simp [ExportClient.create_query, ExportClient.query_with_timestamp, h]

/-- Witness for C4 at a concrete client with a refresh timestamp. -/
theorem c4_create_effective_query_witness :
    (ExportClient.init "material:rock" "dest" "tkn" "https://server/" "jsonl" "title"
        none (some "2023-01-01T00:00:00.000000Z")).create_query
      = (ExportClient.init "material:rock" "dest" "tkn" "https://server/" "jsonl" "title"
          none (some "2023-01-01T00:00:00.000000Z")).query
        ++ " AND indexUpdatedTime:[" ++ "2023-01-01T00:00:00.000000Z" ++ " TO *]" :=
  (c4_create_effective_query _ _).1 rfl

/-- C5: parsing a status string round-trips each of the four enum
values, and every string that is none of the four member values
produces the `ValueError` result. -/
theorem c5_status_string_round_trip :
    (∀ st : ExportJobStatus, ExportJobStatus.string_to_enum st.value = Except.ok st)
    ∧ (∀ s : String, s ≠ "created" → s ≠ "started" → s ≠ "completed" → s ≠ "error" →
        ExportJobStatus.string_to_enum s =
          Except.error ("No ExportJobStatus found for " ++ s)) := by
  constructor
  · intro st; cases st <;> rfl
  · intro s h1 h2 h3 h4
    have e1 : (("created" : String) == s) = false :=
      beq_eq_false_iff_ne.mpr (fun h => h1 h.symm)
    have e2 : (("started" : String) == s) = false :=
      beq_eq_false_iff_ne.mpr (fun h => h2 h.symm)
    have e3 : (("completed" : String) == s) = false :=
      beq_eq_false_iff_ne.mpr (fun h => h3 h.symm)
    have e4 : (("error" : String) == s) = false :=
      beq_eq_false_iff_ne.mpr (fun h => h4 h.symm)
    simp [ExportJobStatus.string_to_enum, ExportJobStatus.members,
      ExportJobStatus.value, List.find?, e1, e2, e3, e4]

/-- Witness for C5: one valid and one invalid status string. -/
theorem c5_status_string_round_trip_witness :
    ExportJobStatus.string_to_enum "completed" = Except.ok ExportJobStatus.completed
    ∧ ExportJobStatus.string_to_enum "bogus" =
        Except.error ("No ExportJobStatus found for " ++ "bogus") :=
  ⟨c5_status_string_round_trip.1 ExportJobStatus.completed,
   c5_status_string_round_trip.2 "bogus" (by decide) (by decide) (by decide) (by decide)⟩

/-- C8: a create call with a 2xx response whose body carries the uuid
field returns that uuid, and a create call with a non-2xx response
raises the `ValueError` instead of returning. -/
theorem c8_create_response_handling (c : ExportClient) (response : Response) :
    (is_expected_response_code response = true →
      json_get response.body "uuid" = some "abc-123" →
      c.create response = Except.ok (some "abc-123"))
    ∧ (is_expected_response_code response = false →
      c.create response = Except.error "Invalid response to export creation") := by
  refine ⟨fun h1 h2 => ?_, fun h1 => ?_⟩
  · simp [ExportClient.create, h1, h2]
  · simp [ExportClient.create, h1]

/-- Witness for C8: status 200 with the uuid field returns it; status
500 raises. -/
theorem c8_create_response_handling_witness :
    (ExportClient.init "q" "dest" "tkn" "https://server/" "jsonl" "t" none none).create
        ⟨200, [("uuid", "abc-123")]⟩ = Except.ok (some "abc-123")
    ∧ (ExportClient.init "q" "dest" "tkn" "https://server/" "jsonl" "t" none none).create
        ⟨500, [("uuid", "abc-123")]⟩ = Except.error "Invalid response to export creation" :=
  ⟨(c8_create_response_handling _ _).1 rfl rfl,
   (c8_create_response_handling _ _).2 rfl⟩

/-- C10: a create call with a 2xx response whose body has no uuid field
returns `None` instead of raising, and the run then proceeds into the
poll loop with that `None` job identifier. -/
theorem c10_create_missing_uuid (c : ExportClient) (response : Response)
    (steps : List IterOutcome)
    (h2xx : is_expected_response_code response = true)
    (hnone : json_get response.body "uuid" = none) :
    c.create response = Except.ok none
    ∧ c.perform_start response steps =
        Except.ok (downloadLoop c.max_errors steps initLoopState) := by
  have hc : c.create response = Except.ok none := by
    simp [ExportClient.create, h2xx, hnone]
  exact ⟨hc, by simp [ExportClient.perform_start, hc, Except.map]⟩

/-- Witness for C10 at a 204 response with an empty body. -/
theorem c10_create_missing_uuid_witness :
    (ExportClient.init "q" "dest" "tkn" "https://server/" "jsonl" "t" none none).create
        ⟨204, []⟩ = Except.ok none
    ∧ (ExportClient.init "q" "dest" "tkn" "https://server/" "jsonl" "t" none
        none).perform_start ⟨204, []⟩ [] =
        Except.ok (downloadLoop (ExportClient.init "q" "dest" "tkn" "https://server/"
          "jsonl" "t" none none).max_errors [] initLoopState) :=
  c10_create_missing_uuid _ _ _ rfl rfl

end ExportClientModel
